import Mathlib

/-!
Verification development for the docuflow self-correcting extraction pipeline.

Shallow embedding, translated from the repository sources:
  * `src/engine/services/ocr_service.py`   (tiered OCR, quality gates)
  * `src/engine/services/llm_service.py`   (extract_json, _repair_json)
  * `src/engine/main_new.py`               (cache, webhook notifier)
  * `src/docuflow-engine/main.py`          (extract_data_with_schema)
  * `src/textapify-agentic-actor/src/utils.py` and
    `src/apify/test_level3_self_correction.py` (validators, self-correction loop)

Modelling conventions: Python floats are modelled as rationals (`ℚ`);
Python dicts are modelled as association lists; network calls are
modelled as explicit outcome parameters; `str.strip()` is modelled by
`pyStrip` below (stripping ASCII whitespace).
-/

/-- JSON values as produced by Python `json.loads`.  Python distinguishes
`int` and `float` results (and `str(1) = "1"` vs `str(1.0) = "1.0"`), so the
embedding keeps two numeric constructors. -/
inductive JValue where
  | str (s : String)
  | int (n : ℤ)
  | float (q : ℚ)
  | bool (b : Bool)
  | null
  | arr (xs : List JValue)
  | obj (kvs : List (String × JValue))
deriving Repr

/-- Skip ASCII whitespace, as the JSON grammar does between tokens. -/
def skipWs : List Char → List Char
  | c :: cs => if c = ' ' ∨ c = '\t' ∨ c = '\n' ∨ c = '\r' then skipWs cs else c :: cs
  | [] => []

/-- Numeric value of a list of decimal digit characters. -/
def digitsVal (ds : List Char) : ℕ :=
  ds.foldl (fun n c => 10 * n + (c.toNat - 48)) 0

/-- Python whitespace characters stripped by `str.strip()`. -/
def isPythonSpace (c : Char) : Bool :=
  c = ' ' ∨ c = '\t' ∨ c = '\n' ∨ c = '\r' ∨ c = Char.ofNat 11 ∨ c = Char.ofNat 12

/-- Model of Python `str.strip()`: drop leading and trailing whitespace. -/
def pyStrip (s : String) : String :=
  String.mk (((s.data.dropWhile isPythonSpace).reverse.dropWhile isPythonSpace).reverse)

/-- Replace every non-overlapping occurrence of `pat` left to right
(model of Python `str.replace` for a non-empty pattern); `fuel` bounds the
scan by the input length. -/
def listReplaceAux (pat repl : List Char) : ℕ → List Char → List Char
  | _, [] => []
  | 0, cs => cs
  | fuel + 1, c :: rest =>
    if pat.isEmpty = false ∧ pat.isPrefixOf (c :: rest) then
      repl ++ listReplaceAux pat repl fuel ((c :: rest).drop pat.length)
    else
      c :: listReplaceAux pat repl fuel rest

/-- String form of `listReplaceAux`: model of Python `str.replace`. -/
def pyReplace (s pat repl : String) : String :=
  String.mk (listReplaceAux pat.data repl.data s.data.length s.data)

/-- ASCII lowering of one character. -/
def pyLowerChar (c : Char) : Char :=
  if 'A' ≤ c ∧ c ≤ 'Z' then Char.ofNat (c.toNat + 32) else c

/-- Model of Python `str.lower()` (the inputs compared against the truth
list are ASCII). -/
def pyLower (s : String) : String :=
  String.mk (s.data.map pyLowerChar)

/-- Parse the body of a JSON string literal (opening quote already consumed).
Returns the decoded characters and the remaining input after the closing
quote.  Standard single-character escapes are supported; `\uXXXX` escapes are
not modelled (no input in this development uses them). -/
def parseStrAux : ℕ → List Char → Option (List Char × List Char)
  | 0, _ => none
  | _, [] => none
  | fuel + 1, c :: cs =>
    if c = '"' then some ([], cs)
    else if c = '\\' then
      match cs with
      | [] => none
      | e :: cs2 =>
        let esc : Option Char :=
          if e = '"' then some '"'
          else if e = '\\' then some '\\'
          else if e = '/' then some '/'
          else if e = 'n' then some '\n'
          else if e = 't' then some '\t'
          else if e = 'r' then some '\r'
          else if e = 'b' then some (Char.ofNat 8)
          else if e = 'f' then some (Char.ofNat 12)
          else none
        match esc with
        | some ch =>
          match parseStrAux fuel cs2 with
          | some (body, rest) => some (ch :: body, rest)
          | none => none
        | none => none
    else
      match parseStrAux fuel cs with
      | some (body, rest) => some (c :: body, rest)
      | none => none

/-- Parse an optional JSON exponent continuation, applied to an already
parsed mantissa. -/
def parseExpCont (mant : ℚ) (cs : List Char) : Option (JValue × List Char) :=
  let p : (ℤ × List Char) :=
    match cs with
    | '+' :: r => (1, r)
    | '-' :: r => (-1, r)
    | _ => (1, cs)
  let ds := p.2.takeWhile Char.isDigit
  let rest := p.2.dropWhile Char.isDigit
  if ds.isEmpty then none
  else some (JValue.float (mant * (10 : ℚ) ^ (p.1 * (digitsVal ds : ℤ))), rest)

/-- Parse a JSON number.  An integer literal yields `JValue.int`; a literal
with a fraction or exponent yields `JValue.float` (as `json.loads` does). -/
def parseNumber (cs : List Char) : Option (JValue × List Char) :=
  let p : (Bool × List Char) :=
    match cs with
    | '-' :: r => (true, r)
    | _ => (false, cs)
  let ip := p.2.takeWhile Char.isDigit
  let cs2 := p.2.dropWhile Char.isDigit
  if ip.isEmpty then none
  else
    let ival : ℤ := if p.1 then -(digitsVal ip : ℤ) else (digitsVal ip : ℤ)
    match cs2 with
    | '.' :: cs3 =>
      let fp := cs3.takeWhile Char.isDigit
      let cs4 := cs3.dropWhile Char.isDigit
      if fp.isEmpty then none
      else
        let sgn : ℚ := if p.1 then -1 else 1
        let mant : ℚ := (ival : ℚ) + sgn * (digitsVal fp : ℚ) / (10 : ℚ) ^ fp.length
        match cs4 with
        | 'e' :: cs5 => parseExpCont mant cs5
        | 'E' :: cs5 => parseExpCont mant cs5
        | _ => some (JValue.float mant, cs4)
    | 'e' :: cs5 => parseExpCont (ival : ℚ) cs5
    | 'E' :: cs5 => parseExpCont (ival : ℚ) cs5
    | _ => some (JValue.int ival, cs2)

mutual

/-- Recursive-descent parser for a JSON value (model of `json.loads`). -/
def parseValue : ℕ → List Char → Option (JValue × List Char)
  | 0, _ => none
  | fuel + 1, input =>
    match skipWs input with
    | [] => none
    | '"' :: r =>
      match parseStrAux (r.length + 1) r with
      | some (body, rest) => some (JValue.str (String.mk body), rest)
      | none => none
    | '[' :: r =>
      match skipWs r with
      | ']' :: r2 => some (JValue.arr [], r2)
      | _ =>
        match parseElems fuel r with
        | some (xs, rest) => some (JValue.arr xs, rest)
        | none => none
    | '{' :: r =>
      match skipWs r with
      | '}' :: r2 => some (JValue.obj [], r2)
      | _ =>
        match parseMembers fuel r with
        | some (kvs, rest) => some (JValue.obj kvs, rest)
        | none => none
    | 't' :: 'r' :: 'u' :: 'e' :: r => some (JValue.bool true, r)
    | 'f' :: 'a' :: 'l' :: 's' :: 'e' :: r => some (JValue.bool false, r)
    | 'n' :: 'u' :: 'l' :: 'l' :: r => some (JValue.null, r)
    | cs => parseNumber cs

/-- Parse a non-empty comma-separated list of array elements, up to and
including the closing bracket. -/
def parseElems : ℕ → List Char → Option (List JValue × List Char)
  | 0, _ => none
  | fuel + 1, input =>
    match parseValue fuel input with
    | none => none
    | some (v, rest) =>
      match skipWs rest with
      | ',' :: r2 =>
        match parseElems fuel r2 with
        | some (xs, rest2) => some (v :: xs, rest2)
        | none => none
      | ']' :: r2 => some ([v], r2)
      | _ => none

/-- Parse a non-empty comma-separated list of object members, up to and
including the closing brace. -/
def parseMembers : ℕ → List Char → Option (List (String × JValue) × List Char)
  | 0, _ => none
  | fuel + 1, input =>
    match skipWs input with
    | '"' :: r =>
      match parseStrAux (r.length + 1) r with
      | none => none
      | some (keyBody, rest) =>
        match skipWs rest with
        | ':' :: r2 =>
          match parseValue fuel r2 with
          | none => none
          | some (v, rest2) =>
            match skipWs rest2 with
            | ',' :: r3 =>
              match parseMembers fuel r3 with
              | some (kvs, rest3) => some ((String.mk keyBody, v) :: kvs, rest3)
              | none => none
            | '}' :: r3 => some ([(String.mk keyBody, v)], r3)
            | _ => none
        | _ => none
    | _ => none

end

/-- Model of Python `json.loads`: parse a complete JSON document, requiring
only whitespace to remain after the value. -/
def jsonParse (s : String) : Option JValue :=
  match parseValue (2 * s.length + 4) s.data with
  | some (v, rest) => if skipWs rest = [] then some v else none
  | none => none

/-- Characters of the OCR garbage class, the regex character class
`[&^%#@!*]` in `ocr_service.py`. -/
def isGarbageChar (c : Char) : Bool :=
  c = '&' ∨ c = '^' ∨ c = '%' ∨ c = '#' ∨ c = '@' ∨ c = '!' ∨ c = '*'

/-- Auxiliary scan: count maximal garbage runs of length at least 3, with
`run` the length of the garbage run currently open. -/
def garbageRunsAux : List Char → ℕ → ℕ
  | [], run => if 3 ≤ run then 1 else 0
  | c :: cs, run =>
    if isGarbageChar c then garbageRunsAux cs (run + 1)
    else (if 3 ≤ run then 1 else 0) + garbageRunsAux cs 0

/-- Model of `len(re.findall(..garbage burst regex.., text))`: the number of
maximal runs of garbage symbols of length at least 3 (the greedy regex
matches each maximal run once). -/
def countGarbageRuns (s : String) : ℕ :=
  garbageRunsAux s.data 0

/-- Tier-1 gate, from `process_with_granite_docling`: the Docling conversion
outcome is accepted only when its markdown output is strictly longer than
100 characters; any exception (including the short-output `OCRError`) is
wrapped into an `OCRError`. -/
def process_with_granite_docling (conversion : Except String String) :
    Except String String :=
  match conversion with
  | Except.error e => Except.error ("Granite-Docling processing failed: " ++ e)
  | Except.ok markdown_content =>
    if 100 < markdown_content.length then Except.ok markdown_content
    else Except.error "Granite-Docling produced insufficient content"

/-- Tier-2 gate, from `process_with_deepseek_ocr`: the raw model response is
rejected when its stripped length is under 20 characters, or when at least
one garbage run of length 3 or more occurs anywhere in it. -/
def process_with_deepseek_ocr (rawResponse : Except String String) :
    Except String String :=
  match rawResponse with
  | Except.error e => Except.error ("DeepSeek-OCR processing failed: " ++ e)
  | Except.ok markdown_content =>
    if (pyStrip markdown_content).length < 20 then
      Except.error "DeepSeek-OCR produced insufficient content (possible hallucination)"
    else if 0 < countGarbageRuns markdown_content then
      Except.error "DeepSeek-OCR produced garbage characters (possible OCR failure)"
    else Except.ok markdown_content

/-- Result shape of `hybrid_ocr_process`, extended with a flag recording
whether the tier-2 engine was invoked at all. -/
structure HybridResult where
  status : String
  markdown : String
  engine_used : String
  tier2_invoked : Bool
deriving Repr, DecidableEq

/-- Model of `hybrid_ocr_process`: try Granite-Docling (tier 1); on its
`OCRError` fall back to DeepSeek-OCR (tier 2); if that also fails, report an
error result with `engine_used = "none"`.  The two engine call outcomes are
passed in as parameters. -/
def hybrid_ocr_process (tier1 tier2 : Except String String) : HybridResult :=
  match process_with_granite_docling tier1 with
  | Except.ok markdown_content =>
    { status := "success", markdown := markdown_content,
      engine_used := "granite-docling", tier2_invoked := false }
  | Except.error _ =>
    match process_with_deepseek_ocr tier2 with
    | Except.ok markdown_content =>
      { status := "success", markdown := markdown_content,
        engine_used := "deepseek-ocr", tier2_invoked := true }
    | Except.error _ =>
      { status := "error", markdown := "", engine_used := "none",
        tier2_invoked := true }

/-- Suffix of the input starting at the first occurrence of `op`. -/
def suffixFromFirst (op : Char) : List Char → Option (List Char)
  | [] => none
  | c :: cs => if c = op then some (c :: cs) else suffixFromFirst op cs

/-- Prefix of the input up to and including the first occurrence of `cl`. -/
def prefixToFirst (cl : Char) : List Char → Option (List Char)
  | [] => none
  | c :: cs =>
    if c = cl then some [c]
    else
      match prefixToFirst cl cs with
      | some r => some (c :: r)
      | none => none

/-- Model of `re.search` with the DOTALL non-greedy brace pattern (and of the bracket
variant): the leftmost, shortest match runs from the first `op` character to
the first `cl` character after it; there is no match when no `op` occurs or
no `cl` follows the first `op`. -/
def firstBlock (op cl : Char) (s : String) : Option String :=
  match suffixFromFirst op s.data with
  | none => none
  | some [] => none
  | some (c :: rest) =>
    match prefixToFirst cl rest with
    | some body => some (String.mk (c :: body))
    | none => none

/-- One repair step of `llm_service._repair_json`: extract the first
non-greedy brace block, or failing that the first non-greedy bracket block,
and apply the trailing-comma fixes; `none` when no such structure exists. -/
def repairStep (s : String) : Option String :=
  match firstBlock '{' '}' s with
  | some sub => some (pyReplace (pyReplace sub ",\x7d" "\x7d") ",]" "]")
  | none =>
    match firstBlock '[' ']' s with
    | some sub => some (pyReplace (pyReplace sub ",\x7d" "\x7d") ",]" "]")
    | none => none

/-- Loop body of `llm_service._repair_json`: iterate
`for attempt in range(max_retries + 1)`, with `fuel` the number of loop
iterations left and `attempt` the current iteration index.  Parsing success
returns the value; once `attempt ≥ max_retries` a still-failing parse raises
`ValueError`; when no JSON-like structure is found the loop returns an empty
dict. -/
def repairAux (max_retries : ℕ) : ℕ → ℕ → String → Except String JValue
  | 0, _, _ => Except.ok (JValue.obj [])
  | fuel + 1, attempt, s =>
    match jsonParse s with
    | some v => Except.ok v
    | none =>
      if max_retries ≤ attempt then
        Except.error "JSON repair failed after max_retries attempts"
      else
        match repairStep s with
        | some s2 => repairAux max_retries fuel (attempt + 1) s2
        | none => Except.ok (JValue.obj [])

/-- Model of `llm_service._repair_json`: an empty string raises immediately;
otherwise the bounded repair loop runs.  An `Except.error` models a raised
`ValueError`. -/
def repair_json (s : String) (max_retries : ℕ) : Except String JValue :=
  if s = "" then Except.error "Empty JSON string"
  else repairAux max_retries (max_retries + 1) 0 s

/-- Outcome of the single LLM capability call made by `extract_json`. -/
inductive LlmOutcome where
  | content (s : String)
  | connectionFailure
  | apiFailure
deriving Repr, DecidableEq

/-- Result of `extract_json` together with a flag recording whether the LLM
capability was invoked at all. -/
structure ExtractJsonRun where
  result : Except String JValue
  llm_called : Bool
deriving Repr

/-- Model of `llm_service.extract_json`: empty or too-short markdown returns
the `no_data_found` sentinel before any client is created; otherwise one
LLM call is made, its content is parsed strictly and repaired on failure;
connection/API failures and repair failures raise (`Except.error`). -/
def extract_json (markdown_text : String) (llm : LlmOutcome) (max_retries : ℕ) :
    ExtractJsonRun :=
  if markdown_text = "" ∨ (pyStrip markdown_text).length < 20 then
    { result := Except.ok (JValue.obj [("status", JValue.str "no_data_found")]),
      llm_called := false }
  else
    match llm with
    | LlmOutcome.connectionFailure =>
      { result := Except.error "LLM connection failed", llm_called := true }
    | LlmOutcome.apiFailure =>
      { result := Except.error "LLM extraction failed", llm_called := true }
    | LlmOutcome.content c =>
      if c = "" then
        { result := Except.ok (JValue.obj [("status", JValue.str "no_data_found")]),
          llm_called := true }
      else
        match jsonParse c with
        | some v => { result := Except.ok v, llm_called := true }
        | none =>
          { result :=
              (repair_json c max_retries).mapError
                (fun e => "LLM extraction failed: " ++ e),
            llm_called := true }

/-- First maximal run of characters matching the regex class `[\d.]` (model
of `re.search` with the digit-or-dot run pattern). -/
def firstNumRunAux : List Char → Option (List Char)
  | [] => none
  | c :: cs =>
    if c.isDigit ∨ c = '.' then
      some (c :: cs.takeWhile (fun d => d.isDigit ∨ d = '.'))
    else firstNumRunAux cs

/-- String form of `firstNumRunAux`. -/
def firstNumRun (s : String) : Option String :=
  (firstNumRunAux s.data).map String.mk

/-- Model of Python `float()` restricted to digit/dot strings (the only
shape `firstNumRun` can produce): defined exactly when all characters are
digits or dots, at least one digit occurs, and at most one dot occurs
(`float("1.2.3")` raises `ValueError`). -/
def pyFloatOfRun (s : String) : Option ℚ :=
  let cs := s.data
  if cs.all (fun c => c.isDigit ∨ c = '.') ∧ cs.any Char.isDigit ∧ cs.count '.' ≤ 1 then
    let ip := cs.takeWhile (fun c => c ≠ '.')
    let fp := (cs.dropWhile (fun c => c ≠ '.')).drop 1
    some ((digitsVal ip : ℚ) + (digitsVal fp : ℚ) / (10 : ℚ) ^ fp.length)
  else none

/-- One line item `{description, amount}` of an extracted record. -/
structure LineItem where
  description : String
  amount : ℚ
deriving Repr, DecidableEq

/-- The part of the state read by `validate_math_logic`
(`test_level3_self_correction.py`): the string-valued `Total` and `Tax`
entries of `extracted_fields` (`.get` default is the string "0.0") and the
list of line items. -/
structure StructuredData where
  total_field : String
  tax_field : String
  line_items : List LineItem
deriving Repr, DecidableEq

/-- Validation verdict values. -/
inductive ValidationStatus where
  | valid
  | needs_review
deriving Repr, DecidableEq

/-- Result of a validation node: a verdict and the updated attempts counter. -/
structure ValidationResult where
  validation_status : ValidationStatus
  attempts : ℕ
deriving Repr, DecidableEq

/-- Model of `float(match.group()) if match else 0.0` applied to the first digit-or-dot run of the field:
no numeric run at all yields `0.0`, a run that `float()` rejects yields
`none` (the `ValueError` path). -/
def parsedAmount (field : String) : Option ℚ :=
  match firstNumRun field with
  | none => some 0
  | some run => pyFloatOfRun run

/-- Model of `validate_math_logic` (the self-correction validator of
`test_level3_self_correction.py`, mirroring `validate_math_node`): parse
`Total` and `Tax`, sum the amounts of line items whose description is not
"Tax", add the tax, and flag `needs_review` (incrementing `attempts`)
exactly when the absolute difference from the parsed total exceeds the
tolerance 0.01; a `ValueError` while parsing also yields `needs_review`. -/
def validate_math_logic (d : StructuredData) (attempts : ℕ) : ValidationResult :=
  match parsedAmount d.total_field, parsedAmount d.tax_field with
  | some total_amount, some tax_amount =>
    let subtotal :=
      ((d.line_items.filter (fun item => item.description ≠ "Tax")).map
        LineItem.amount).sum
    let calculated_total := subtotal + tax_amount
    if 1 / 100 < |total_amount - calculated_total| then
      { validation_status := ValidationStatus.needs_review, attempts := attempts + 1 }
    else
      { validation_status := ValidationStatus.valid, attempts := attempts }
  | _, _ =>
    { validation_status := ValidationStatus.needs_review, attempts := attempts + 1 }

/-- One cycle of the self-correction workflow: the validation node leaves
`attempts` unchanged on a pass and increments it by one on a failure
(`mock_validate_node`). -/
def validationCycle (verdict : Bool) (attempts : ℕ) : ValidationResult :=
  if verdict then
    { validation_status := ValidationStatus.valid, attempts := attempts }
  else
    { validation_status := ValidationStatus.needs_review, attempts := attempts + 1 }

/-- Loop body of the bounded self-correction workflow
(`test_langgraph_workflow_concept`, lines 199-221):
`for attempt in range(max_attempts)` with two exits, a `valid` verdict or an
exhausted attempt budget.  `verdicts cycle` is the validation verdict of the
record re-extracted on that cycle. -/
def selfCorrectionAux (verdicts : ℕ → Bool) (max_attempts : ℕ) :
    ℕ → ℕ → ValidationResult → ValidationResult
  | 0, _, st => st
  | fuel + 1, cycle, st =>
    let st2 := validationCycle (verdicts cycle) st.attempts
    if st2.validation_status = ValidationStatus.valid then st2
    else if max_attempts ≤ st2.attempts then st2
    else selfCorrectionAux verdicts max_attempts fuel (cycle + 1) st2

/-- The self-correction loop from its initial state
(`attempts = 0`; the status field before any validation is immaterial and
initialised to `needs_review`). -/
def self_correction_loop (verdicts : ℕ → Bool) (max_attempts : ℕ) :
    ValidationResult :=
  selfCorrectionAux verdicts max_attempts max_attempts 0
    { validation_status := ValidationStatus.needs_review, attempts := 0 }

/-- Outcome of one webhook delivery attempt, from the body of
`send_webhook_notification`: an HTTP 200 response, a non-200 HTTP response
(handled inline, no exception), or a raised exception (network error,
timeout, non-HTTP failure). -/
inductive AttemptOutcome where
  | success
  | httpFail (status : ℕ)
  | raiseErr
deriving Repr, DecidableEq

/-- Observable trace of one `send_webhook_notification` call: how many POST
attempts were made, which backoff sleeps were performed (in order, in
seconds), and the returned delivery flag. -/
structure WebhookRun where
  attempts_made : ℕ
  sleeps : List ℕ
  delivered : Bool
deriving Repr, DecidableEq

/-- Loop body of `send_webhook_notification`
(`for attempt in range(max_retries)`): a 200 response returns `True`
immediately; a non-200 response just logs and re-enters the loop; an
exception sleeps `2 ** attempt` seconds, but only when it is not the last
attempt.  Falling off the loop returns `False`. -/
def webhookAux (outcome : ℕ → AttemptOutcome) (max_retries : ℕ) :
    ℕ → ℕ → List ℕ → WebhookRun
  | 0, made, sleeps =>
    { attempts_made := made, sleeps := sleeps.reverse, delivered := false }
  | fuel + 1, made, sleeps =>
    let attempt := max_retries - (fuel + 1)
    match outcome attempt with
    | AttemptOutcome.success =>
      { attempts_made := made + 1, sleeps := sleeps.reverse, delivered := true }
    | AttemptOutcome.httpFail _ =>
      webhookAux outcome max_retries fuel (made + 1) sleeps
    | AttemptOutcome.raiseErr =>
      if attempt < max_retries - 1 then
        webhookAux outcome max_retries fuel (made + 1) (2 ^ attempt :: sleeps)
      else
        webhookAux outcome max_retries fuel (made + 1) sleeps

/-- Model of `send_webhook_notification` with the attempt outcomes supplied
as an oracle indexed by attempt number. -/
def send_webhook_notification (outcome : ℕ → AttemptOutcome)
    (max_retries : ℕ) : WebhookRun :=
  webhookAux outcome max_retries max_retries 0 []

/-- One cache entry as stored by Redis `SETEX`: the cached payload and its
absolute expiry time. -/
structure CacheEntry where
  value : String
  expiry : ℕ
deriving Repr, DecidableEq

/-- The shared state threaded through the extraction entry point: the Redis
cache contents, the wall clock, and a counter of OCR+LLM executions. -/
structure EngineState where
  cache : List (String × CacheEntry)
  now : ℕ
  compute_count : ℕ
deriving Repr, DecidableEq

/-- Modelled stand-in for `hashlib.md5(content.encode()).hexdigest()`: the
digest is a fixed deterministic function of its input, which is the only
property the cache relies on; cryptographic properties are outside the
embedding, so the digest is modelled by the identity encoding. -/
def md5hex (s : String) : String := s

/-- Model of `generate_cache_key`: a stable key derived from the document
URL and the schema type. -/
def generate_cache_key (document_url schema_type : String) : String :=
  "ocr_result:" ++ md5hex (document_url ++ ":" ++ schema_type)

/-- Association-list lookup for the cache. -/
def lookupCache : List (String × CacheEntry) → String → Option CacheEntry
  | [], _ => none
  | (k, e) :: rest, key => if k = key then some e else lookupCache rest key

/-- Model of `get_cached_result`: a stored entry is returned while it has
not expired (Redis `SETEX` expiry). -/
def get_cached_result (st : EngineState) (cache_key : String) : Option String :=
  match lookupCache st.cache cache_key with
  | some entry => if st.now < entry.expiry then some entry.value else none
  | none => none

/-- Model of `set_cached_result`: store the value with absolute expiry
`now + ttl`. -/
def set_cached_result (st : EngineState) (cache_key value : String)
    (ttl : ℕ) : EngineState :=
  { st with cache := (cache_key, { value := value, expiry := st.now + ttl }) :: st.cache }

/-- Model of the synchronous path of `extract_document` /
`process_document_sync`: check the cache under the generated key; on a hit
return the cached value untouched (no engine work); on a miss run the
OCR+LLM computation (counted in `compute_count`), cache its value with the
default TTL of 3600 seconds, and return it.  `computed` is the value the
OCR+LLM pipeline would produce for this document. -/
def extract_document (st : EngineState) (document_url schema_type : String)
    (computed : String) : String × EngineState :=
  let cache_key := generate_cache_key document_url schema_type
  match get_cached_result st cache_key with
  | some v => (v, st)
  | none =>
    let st1 : EngineState := { st with compute_count := st.compute_count + 1 }
    (computed, set_cached_result st1 cache_key computed 3600)

/-- Advance the wall clock by `d` seconds between requests. -/
def tick (st : EngineState) (d : ℕ) : EngineState :=
  { st with now := st.now + d }

/-- Phase of one concurrent request handler for a fixed cache key, running
the `extract_document` body: about to call `get_cached_result`; past a miss
with its OCR/LLM computation in flight; or finished with a result. -/
inductive CallerPhase where
  | beforeGet
  | computing
  | finished (result : String)
deriving Repr, DecidableEq

/-- One scheduler step of a single caller.  The handler body has no per-key
lock (`get_cached_result` is a plain Redis GET), so the step function never
inspects the phase of any other caller: a miss always proceeds to the
own computation of this caller. -/
def callerStep (st : EngineState) (key computed : String) :
    CallerPhase → EngineState × CallerPhase
  | CallerPhase.beforeGet =>
    match get_cached_result st key with
    | some v => (st, CallerPhase.finished v)
    | none => (st, CallerPhase.computing)
  | CallerPhase.computing =>
    let st1 : EngineState := { st with compute_count := st.compute_count + 1 }
    (set_cached_result st1 key computed 3600, CallerPhase.finished computed)
  | CallerPhase.finished v => (st, CallerPhase.finished v)

/-- Two concurrent callers for the same cache key over the shared state. -/
structure TwoCallers where
  shared : EngineState
  caller0 : CallerPhase
  caller1 : CallerPhase
deriving Repr, DecidableEq

/-- Run one interleaving step: schedule caller 1 when `who` is `true`,
caller 0 otherwise. -/
def sysStep (key c0val c1val : String) (sys : TwoCallers) (who : Bool) :
    TwoCallers :=
  if who then
    let r := callerStep sys.shared key c1val sys.caller1
    { sys with shared := r.1, caller1 := r.2 }
  else
    let r := callerStep sys.shared key c0val sys.caller0
    { sys with shared := r.1, caller0 := r.2 }

/-- Run a whole schedule of interleaving steps. -/
def runSchedule (key c0val c1val : String) (sys : TwoCallers) :
    List Bool → TwoCallers
  | [] => sys
  | who :: rest => runSchedule key c0val c1val (sysStep key c0val c1val sys who) rest

/-- One declared schema field `{key, type, description}` as consumed by
`extract_data_with_schema` in `docuflow-engine/main.py`. -/
structure SchemaField where
  key : String
  type : String
  description : String
deriving Repr, DecidableEq

/-- Python `isinstance(value, (int, float))`; note `bool` is a subclass of
`int` in Python, so boolean values satisfy this test. -/
def pyIsIntOrFloat : JValue → Bool
  | JValue.int _ => true
  | JValue.float _ => true
  | JValue.bool _ => true
  | _ => false

/-- Python `isinstance(value, list)`. -/
def pyIsList : JValue → Bool
  | JValue.arr _ => true
  | _ => false

/-- Python `isinstance(value, bool)`. -/
def pyIsBool : JValue → Bool
  | JValue.bool _ => true
  | _ => false

/-- Python truthiness of a JSON value (`[value] if value else []`). -/
def pyTruthy : JValue → Bool
  | JValue.str s => s ≠ ""
  | JValue.int n => n ≠ 0
  | JValue.float q => q ≠ 0
  | JValue.bool b => b
  | JValue.null => false
  | JValue.arr xs => !xs.isEmpty
  | JValue.obj kvs => !kvs.isEmpty

/-- Python `str(value).lower() in [..true, 1, yes, on..]` for a JSON
value: strings compare case-insensitively; `str` of an int is its decimal
form, so only the int 1 is in the list; `str` of a float always carries a
fraction or exponent marker, `str(None) = "None"`, and list/dict reprs
contain brackets, so none of those are ever in the list. -/
def pyStrLowerInTruthList : JValue → Bool
  | JValue.str s =>
    pyLower s = "true" ∨ pyLower s = "1" ∨ pyLower s = "yes" ∨ pyLower s = "on"
  | JValue.int n => n = 1
  | JValue.float _ => false
  | JValue.bool b => b
  | JValue.null => false
  | JValue.arr _ => false
  | JValue.obj _ => false

/-- Unsigned part of Python `float()` on a general string: mantissa digits
with at most one dot, optionally followed by an exponent part that must
consume the rest of the string.  (`inf`, `nan` and underscore separators are
not modelled; no input in this repository produces them.) -/
def pyFloatUnsigned (cs : List Char) : Option ℚ :=
  let mant := cs.takeWhile (fun c => ¬ (c = 'e' ∨ c = 'E'))
  let rest := cs.dropWhile (fun c => ¬ (c = 'e' ∨ c = 'E'))
  match pyFloatOfRun (String.mk mant) with
  | none => none
  | some q =>
    match rest with
    | [] => some q
    | _ :: es =>
      let p2 : (ℤ × List Char) :=
        match es with
        | '-' :: r => (-1, r)
        | '+' :: r => (1, r)
        | r => (1, r)
      let ds := p2.2.takeWhile Char.isDigit
      let leftover := p2.2.dropWhile Char.isDigit
      if ds.isEmpty ∨ leftover ≠ [] then none
      else some (q * (10 : ℚ) ^ (p2.1 * (digitsVal ds : ℤ)))

/-- Model of Python `float()` on an arbitrary (already stripped) string:
an optional sign followed by the unsigned form; `none` models the raised
`ValueError`. -/
def pyFloatGen (s : String) : Option ℚ :=
  match s.data with
  | '-' :: r => (pyFloatUnsigned r).map (fun q => -q)
  | '+' :: r => pyFloatUnsigned r
  | cs => pyFloatUnsigned cs

/-- Association-list lookup modelling `key in extracted_data` plus
`extracted_data[key]`. -/
def lookupJson : List (String × JValue) → String → Option JValue
  | [], _ => none
  | (k, v) :: rest, key => if k = key then some v else lookupJson rest key

/-- Per-field body of the validation loop of `extract_data_with_schema`
(`docuflow-engine/main.py`, lines 242-276), producing the entries this field
contributes to `validated_data`.  A present value of declared type `number`
that is neither numeric nor a string makes Python call `float()` on it,
raising an uncaught `TypeError` (only `ValueError` is handled), modelled as
`Except.error`.  An absent field of a declared type outside
string/number/array/boolean/date falls through every default branch and
contributes no entry at all. -/
def validateField (f : SchemaField) (extracted_data : List (String × JValue)) :
    Except String (List (String × JValue)) :=
  match lookupJson extracted_data f.key with
  | some value =>
    if f.type = "number" ∧ ¬ pyIsIntOrFloat value then
      match value with
      | JValue.str s =>
        match pyFloatGen (pyStrip (pyReplace (pyReplace s "$" "") "," "")) with
        | some q => Except.ok [(f.key, JValue.float q)]
        | none => Except.ok [(f.key, JValue.float 0)]
      | _ => Except.error "TypeError: float() argument"
    else if f.type = "array" ∧ ¬ pyIsList value then
      Except.ok [(f.key, if pyTruthy value then JValue.arr [value] else JValue.arr [])]
    else if f.type = "boolean" ∧ ¬ pyIsBool value then
      Except.ok [(f.key, JValue.bool (pyStrLowerInTruthList value))]
    else Except.ok [(f.key, value)]
  | none =>
    if f.type = "string" then Except.ok [(f.key, JValue.str "")]
    else if f.type = "number" then Except.ok [(f.key, JValue.float 0)]
    else if f.type = "array" then Except.ok [(f.key, JValue.arr [])]
    else if f.type = "boolean" then Except.ok [(f.key, JValue.bool false)]
    else if f.type = "date" then Except.ok [(f.key, JValue.str "")]
    else Except.ok []

/-- Model of the schema-validation half of `extract_data_with_schema`: fold
the per-field loop over the declared schema against the parsed LLM output
(`extracted_data`), accumulating `validated_data` in schema order.  The
earlier prompt-building and brace-extraction half is not needed here: the
claims about this function quantify over the already parsed output. -/
def extract_data_with_schema (schema : List SchemaField)
    (extracted_data : List (String × JValue)) :
    Except String (List (String × JValue)) :=
  match schema with
  | [] => Except.ok []
  | f :: rest =>
    match validateField f extracted_data with
    | Except.error e => Except.error e
    | Except.ok entry =>
      match extract_data_with_schema rest extracted_data with
      | Except.error e => Except.error e
      | Except.ok out => Except.ok (entry ++ out)

/-- Spec-side default value, written from the words of the claim: the
type-appropriate default is the empty string, 0.0, the empty array, or
`false`. -/
def specDefault (t : String) : JValue :=
  if t = "number" then JValue.float 0
  else if t = "array" then JValue.arr []
  else if t = "boolean" then JValue.bool false
  else JValue.str ""

/-- Spec-side coercion of a present value, written from the words of the claim:
`number` strings are stripped of currency symbols and commas and parsed as
floats with 0.0 on failure; `array` wraps a truthy scalar in a one-element
array (a falsy scalar becomes the empty array); `boolean` is true exactly
when `str(value).lower()` is one of true/1/yes/on; other declared types
keep the value as provided. -/
def specCoerce (t : String) (value : JValue) : JValue :=
  if t = "number" then
    match value with
    | JValue.str s =>
      match pyFloatGen (pyStrip (pyReplace (pyReplace s "$" "") "," "")) with
      | some q => JValue.float q
      | none => JValue.float 0
    | v => v
  else if t = "array" then
    match value with
    | JValue.arr xs => JValue.arr xs
    | v => if pyTruthy v then JValue.arr [v] else JValue.arr []
  else if t = "boolean" then
    match value with
    | JValue.bool b => JValue.bool b
    | v => JValue.bool (pyStrLowerInTruthList v)
  else value

/-- Spec-side value of one schema field given the parsed LLM output:
coerce when present, default when absent. -/
def specFieldValue (f : SchemaField) (extracted_data : List (String × JValue)) :
    JValue :=
  match lookupJson extracted_data f.key with
  | some v => specCoerce f.type v
  | none => specDefault f.type

/-- C10: for every input text that is empty or whose trimmed length is less
than 20 characters, `extract_json` returns the sentinel record
`{"status": "no_data_found"}` and performs no LLM capability call at all. -/
theorem extract_json_short_input_sentinel
    (markdown_text : String) (llm : LlmOutcome) (max_retries : ℕ)
    (h : markdown_text = "" ∨ (pyStrip markdown_text).length < 20) :
    extract_json markdown_text llm max_retries =
      { result := Except.ok (JValue.obj [("status", JValue.str "no_data_found")]),
        llm_called := false } := by
  simp [extract_json, h]

/-- Witness for C10 at the concrete input "short". -/
theorem extract_json_short_input_sentinel_witness :
    extract_json "short" (LlmOutcome.content "ignored") 1 =
      { result := Except.ok (JValue.obj [("status", JValue.str "no_data_found")]),
        llm_called := false } :=
  extract_json_short_input_sentinel "short" (LlmOutcome.content "ignored") 1
    (Or.inr (by decide))

/-- C2, amended: tier-1 output is accepted, with `engine_used =
"granite-docling"` and tier-2 never invoked, exactly for outputs of length
strictly greater than 100 characters (the source tests `len > 100`, not
`len ≥ 100`; tier-1 applies no garbage check at all). -/
theorem tier1_accepts_strictly_over_100
    (markdown_content : String) (tier2 : Except String String)
    (h : 100 < markdown_content.length) :
    hybrid_ocr_process (Except.ok markdown_content) tier2 =
      { status := "success", markdown := markdown_content,
        engine_used := "granite-docling", tier2_invoked := false } := by
  simp [hybrid_ocr_process, process_with_granite_docling, h]

/-- Witness for C2 at a 101-character tier-1 output. -/
theorem tier1_accepts_strictly_over_100_witness :
    hybrid_ocr_process (Except.ok (String.mk (List.replicate 101 'a')))
        (Except.error "tier2 unavailable") =
      { status := "success", markdown := String.mk (List.replicate 101 'a'),
        engine_used := "granite-docling", tier2_invoked := false } :=
  tier1_accepts_strictly_over_100 (String.mk (List.replicate 101 'a'))
    (Except.error "tier2 unavailable") (by decide)

set_option maxRecDepth 4000 in
/-- C2, counterexample: a clean tier-1 output of length exactly 100 (which
the claim says is accepted, tier-2 never invoked) is rejected by the
`len > 100` gate, and tier-2 is invoked. -/
theorem tier1_exactly_100_invokes_tier2 :
    (String.mk (List.replicate 100 'a')).length = 100 ∧
    countGarbageRuns (String.mk (List.replicate 100 'a')) = 0 ∧
    (hybrid_ocr_process (Except.ok (String.mk (List.replicate 100 'a')))
        (Except.ok (String.mk (List.replicate 50 'b')))).engine_used =
      "deepseek-ocr" ∧
    (hybrid_ocr_process (Except.ok (String.mk (List.replicate 100 'a')))
        (Except.ok (String.mk (List.replicate 50 'b')))).tier2_invoked = true := by
  refine ⟨by decide, by decide, by decide, by decide⟩

/-- C6: two sequential calls of the extraction entry point with an identical
(document, schema) pair execute the OCR/LLM computation exactly once; within
the TTL window the second call returns the value cached by the first. -/
theorem cache_get_or_compute_idempotent
    (st : EngineState) (document_url schema_type v1 v2 : String) (d : ℕ)
    (hmiss : get_cached_result st (generate_cache_key document_url schema_type) = none)
    (httl : d < 3600) :
    (extract_document (tick (extract_document st document_url schema_type v1).2 d)
        document_url schema_type v2).1 =
      (extract_document st document_url schema_type v1).1 ∧
    (extract_document (tick (extract_document st document_url schema_type v1).2 d)
        document_url schema_type v2).2.compute_count = st.compute_count + 1 := by
  have h2 : st.now + d < st.now + 3600 := by omega
  simp only [extract_document, hmiss]
  simp [tick, set_cached_result, get_cached_result, lookupCache, h2]

/-- Witness for C6: a fresh state, two identical requests 10 seconds apart. -/
theorem cache_get_or_compute_idempotent_witness :
    (extract_document
        (tick (extract_document ⟨[], 0, 0⟩ "http://doc.pdf" "invoice" "R1").2 10)
        "http://doc.pdf" "invoice" "R2").1 =
      (extract_document ⟨[], 0, 0⟩ "http://doc.pdf" "invoice" "R1").1 ∧
    (extract_document
        (tick (extract_document ⟨[], 0, 0⟩ "http://doc.pdf" "invoice" "R1").2 10)
        "http://doc.pdf" "invoice" "R2").2.compute_count = 1 :=
  cache_get_or_compute_idempotent ⟨[], 0, 0⟩ "http://doc.pdf" "invoice" "R1" "R2" 10
    (by decide) (by decide)

/-- C7, amended: the request handler has no per-key lock, so a caller that
misses while another caller is already computing for the same key starts its
own duplicate computation; an interleaving of two callers on one key
performs the OCR/LLM work twice. -/
theorem concurrent_miss_duplicates_computation
    (st : EngineState) (key c0val c1val : String)
    (hmiss : get_cached_result st key = none) :
    (runSchedule key c0val c1val
        { shared := st, caller0 := CallerPhase.beforeGet,
          caller1 := CallerPhase.beforeGet }
        [false, true, false, true]).shared.compute_count =
      st.compute_count + 2 := by
  simp [runSchedule, sysStep, callerStep, hmiss, set_cached_result]

/-- Witness for C7 on a fresh shared state. -/
theorem concurrent_miss_duplicates_computation_witness :
    (runSchedule (generate_cache_key "http://doc.pdf" "invoice") "A" "B"
        { shared := ⟨[], 0, 0⟩, caller0 := CallerPhase.beforeGet,
          caller1 := CallerPhase.beforeGet }
        [false, true, false, true]).shared.compute_count = 2 :=
  concurrent_miss_duplicates_computation ⟨[], 0, 0⟩
    (generate_cache_key "http://doc.pdf" "invoice") "A" "B" (by decide)

/-- C7, counterexample: after the schedule in which both callers read the
cache before either writes, both callers are simultaneously in the
`computing` phase for the same key — two in-flight computations — and
completing the run gives two executions, refuting single-flight. -/
theorem two_callers_both_in_flight :
    (runSchedule (generate_cache_key "http://doc.pdf" "invoice") "A" "B"
        { shared := ⟨[], 0, 0⟩, caller0 := CallerPhase.beforeGet,
          caller1 := CallerPhase.beforeGet }
        [false, true]).caller0 = CallerPhase.computing ∧
    (runSchedule (generate_cache_key "http://doc.pdf" "invoice") "A" "B"
        { shared := ⟨[], 0, 0⟩, caller0 := CallerPhase.beforeGet,
          caller1 := CallerPhase.beforeGet }
        [false, true]).caller1 = CallerPhase.computing := by
  refine ⟨by decide, by decide⟩

/-- Helper invariant for the self-correction loop: if the attempts already
consumed plus the remaining loop iterations stay within the budget, the loop
never leaves the budget. -/
theorem selfCorrectionAux_attempts_le (verdicts : ℕ → Bool) (maxA : ℕ) :
    ∀ (fuel cycle : ℕ) (st : ValidationResult),
      st.attempts + fuel ≤ maxA →
      (selfCorrectionAux verdicts maxA fuel cycle st).attempts ≤ maxA := by
  intro fuel
  induction fuel with
  | zero =>
    intro cycle st h
    simpa [selfCorrectionAux] using by omega
  | succ n ih =>
    intro cycle st h
    by_cases hv : verdicts cycle
    · simp [selfCorrectionAux, validationCycle, hv]
      omega
    · simp only [selfCorrectionAux, validationCycle, hv, if_false, Bool.false_eq_true]
      by_cases hm : maxA ≤ st.attempts + 1
      · simp [hm]
        omega
      · simp only [hm, if_false]
        exact ih (cycle + 1) _ (by simp; omega)

/-- C1: the attempts counter of the self-correction loop never exceeds the
configured attempt budget, and when every validation cycle still reports
needs_review, the loop with the default budget of 3 stops in the terminal
state needs_review with attempts = 3. -/
theorem self_correction_attempts_bounded (verdicts : ℕ → Bool) (max_attempts : ℕ) :
    (self_correction_loop verdicts max_attempts).attempts ≤ max_attempts ∧
    ((∀ i, verdicts i = false) →
      self_correction_loop verdicts 3 =
        { validation_status := ValidationStatus.needs_review, attempts := 3 }) := by
  constructor
  · exact selfCorrectionAux_attempts_le verdicts max_attempts max_attempts 0 _
      (by simp)
  · intro hfail
    simp [self_correction_loop, selfCorrectionAux, validationCycle,
      hfail 0, hfail 1, hfail 2]

/-- Witness for C1 at the always-failing validation oracle. -/
theorem self_correction_attempts_bounded_witness :
    (self_correction_loop (fun _ => false) 3).attempts ≤ 3 ∧
    self_correction_loop (fun _ => false) 3 =
      { validation_status := ValidationStatus.needs_review, attempts := 3 } :=
  ⟨(self_correction_attempts_bounded (fun _ => false) 3).1,
    (self_correction_attempts_bounded (fun _ => false) 3).2 (fun _ => rfl)⟩

/-- Attempt outcome test used to state which failures slept. -/
def AttemptOutcome.isRaise : AttemptOutcome → Bool
  | AttemptOutcome.raiseErr => true
  | _ => false

/-- C9, amended: on three consecutive failing attempts the webhook is POSTed
exactly 3 times, a 4th attempt is never made, and the call returns the
non-fatal False; the exponential backoff sleep of 2 ^ attempt seconds occurs
only after attempts that raised an exception (network error) and are not the
last attempt — a non-2xx HTTP response is retried with no backoff. -/
theorem webhook_retry_characterization (outcome : ℕ → AttemptOutcome)
    (h0 : outcome 0 ≠ AttemptOutcome.success)
    (h1 : outcome 1 ≠ AttemptOutcome.success)
    (h2 : outcome 2 ≠ AttemptOutcome.success) :
    send_webhook_notification outcome 3 =
      { attempts_made := 3,
        sleeps := ((List.range 2).filter (fun i => (outcome i).isRaise)).map
          (fun i => 2 ^ i),
        delivered := false } := by
  rcases ho0 : outcome 0 with _ | s0 | _ <;>
    rcases ho1 : outcome 1 with _ | s1 | _ <;>
      rcases ho2 : outcome 2 with _ | s2 | _ <;>
        first
          | exact absurd ho0 h0
          | exact absurd ho1 h1
          | exact absurd ho2 h2
          | simp [send_webhook_notification, webhookAux, ho0, ho1, ho2,
              AttemptOutcome.isRaise, List.range_succ]

/-- Witness for C9 at three consecutive network errors: backoff sleeps of
1 and 2 seconds, three attempts, delivery failure. -/
theorem webhook_retry_characterization_witness :
    send_webhook_notification (fun _ => AttemptOutcome.raiseErr) 3 =
      { attempts_made := 3, sleeps := [1, 2], delivered := false } := by
  have h := webhook_retry_characterization (fun _ => AttemptOutcome.raiseErr)
    (by decide) (by decide) (by decide)
  simpa using h

/-- C9, counterexample: on three consecutive non-2xx HTTP responses the
webhook is retried with no backoff sleep at all, refuting the claimed
2 ^ attempt backoff between attempts (the sleep only happens in the
exception handler). -/
theorem webhook_http_failures_no_backoff :
    send_webhook_notification (fun _ => AttemptOutcome.httpFail 500) 3 =
      { attempts_made := 3, sleeps := [], delivered := false } ∧
    (send_webhook_notification (fun _ => AttemptOutcome.httpFail 500) 3).sleeps ≠
      [1, 2] := by
  refine ⟨by decide, by decide⟩

/-- Spec-side arithmetic total, written from the words of the claim: the sum
of line-item amounts whose description is not "Tax", plus the tax amount. -/
def calculatedTotalSpec (line_items : List LineItem) (tax_amount : ℚ) : ℚ :=
  ((line_items.filter (fun item => item.description ≠ "Tax")).map
    LineItem.amount).sum + tax_amount

/-- C3: whenever the Total and Tax fields parse, the arithmetic check of the
self-correction validator fails (reports needs_review) exactly when the
absolute difference between the parsed total and the spec-side calculated
total exceeds the tolerance 0.01. -/
theorem validate_math_check_iff_tolerance
    (d : StructuredData) (attempts : ℕ) (total_amount tax_amount : ℚ)
    (ht : parsedAmount d.total_field = some total_amount)
    (hx : parsedAmount d.tax_field = some tax_amount) :
    (validate_math_logic d attempts).validation_status =
        ValidationStatus.needs_review ↔
      1 / 100 < |total_amount - calculatedTotalSpec d.line_items tax_amount| := by
  unfold validate_math_logic calculatedTotalSpec
  rw [ht, hx]
  dsimp only
  split_ifs with hgt
  · simpa using hgt
  · simpa using hgt

/-- Witness for C3 at the trap record of the test suite: Total 500.00, Tax
10.00, one line item of 100.00 plus the Tax line; the calculated total is
110.00, the difference 390.00 exceeds 0.01, so the record is flagged
needs_review. -/
theorem validate_math_check_iff_tolerance_witness :
    (validate_math_logic
        { total_field := "$500.00", tax_field := "$10.00",
          line_items := [{ description := "Item 1", amount := 100 },
                         { description := "Tax", amount := 10 }] } 0).validation_status =
      ValidationStatus.needs_review := by
  have h := validate_math_check_iff_tolerance
    { total_field := "$500.00", tax_field := "$10.00",
      line_items := [{ description := "Item 1", amount := 100 },
                     { description := "Tax", amount := 10 }] } 0 500 10
    (by simp [parsedAmount, firstNumRun, firstNumRunAux, pyFloatOfRun, digitsVal])
    (by simp [parsedAmount, firstNumRun, firstNumRunAux, pyFloatOfRun, digitsVal])
  rw [h]
  simp [calculatedTotalSpec, List.filter_cons, List.filter_nil]
  norm_num

/-- C4, amended: on an LLM response that fails strict JSON parsing,
`extract_json` (with the default single repair retry) extracts the leftmost
shortest brace block (from the first opening brace to the first closing
brace after it) or, only when no brace block exists, the leftmost shortest
bracket block, applies the trailing-comma fixes, and returns the parse of
that substring; when no brace or bracket structure exists at all it returns
an empty record without raising; but when an extracted block still fails to
parse, it raises (an error result) instead of degrading to an empty
record. -/
theorem extract_json_repair_behavior (markdown_text c : String)
    (hlong : ¬ (markdown_text = "" ∨ (pyStrip markdown_text).length < 20))
    (hc : c ≠ "") (hparse : jsonParse c = none) :
    (extract_json markdown_text (LlmOutcome.content c) 1).result =
      match repairStep c with
      | none => Except.ok (JValue.obj [])
      | some s2 =>
        match jsonParse s2 with
        | some v => Except.ok v
        | none =>
          Except.error
            "LLM extraction failed: JSON repair failed after max_retries attempts" := by
  simp only [extract_json, hlong, if_false]
  simp only [hc, if_false, hparse]
  simp only [repair_json, hc, if_false, repairAux, hparse]
  cases hr : repairStep c with
  | none => simp [hr, Except.mapError]
  | some s2 =>
    cases hp : jsonParse s2 with
    | none => simp [hr, hp, Except.mapError, repairAux]
    | some v => simp [hr, hp, Except.mapError, repairAux]

/-- Witness for C4: a response with a valid brace block wrapped in prose
parses to the values of that block. -/
theorem extract_json_repair_behavior_witness :
    (extract_json "This markdown text is long enough to pass the guard."
        (LlmOutcome.content "see \x7b\x22a\x22: 1\x7d here") 1).result =
      Except.ok (JValue.obj [("a", JValue.int 1)]) := by
  have h := extract_json_repair_behavior
    "This markdown text is long enough to pass the guard."
    "see \x7b\x22a\x22: 1\x7d here" (by decide) (by decide) (by rfl)
  rw [h]
  rfl

/-- C4, counterexample: a response whose extracted brace block still fails
to parse makes `extract_json` raise (an error result), refuting the claim
that malformed JSON always degrades to an empty record without raising. -/
theorem extract_json_raises_on_unrepairable_block :
    (extract_json "This markdown text is long enough to pass the guard."
        (LlmOutcome.content "x\x7by\x7dz") 1).result =
      Except.error
        "LLM extraction failed: JSON repair failed after max_retries attempts" := by
  rfl

/-- A garbage burst in the sense of the spec: some substring of length at
least 3 made entirely of garbage symbols. -/
def hasGarbageBurst (s : String) : Prop :=
  ∃ pre mid post : List Char, s.data = pre ++ mid ++ post ∧ 3 ≤ mid.length ∧
    ∀ c ∈ mid, isGarbageChar c

/-- The run scan is monotone in the length of the already-open run. -/
theorem garbageRunsAux_mono : ∀ (cs : List Char) (r1 r2 : ℕ), r2 ≤ r1 →
    garbageRunsAux cs r2 ≤ garbageRunsAux cs r1 := by
  intro cs
  induction cs with
  | nil =>
    intro r1 r2 h
    simp only [garbageRunsAux]
    split_ifs <;> omega
  | cons c cs ih =>
    intro r1 r2 h
    by_cases hg : isGarbageChar c
    · simp only [garbageRunsAux, hg, if_true]
      exact ih _ _ (by omega)
    · simp only [garbageRunsAux, hg, if_false]
      have hif : (if 3 ≤ r2 then 1 else 0) ≤ (if 3 ≤ r1 then 1 else 0) := by
        split_ifs <;> omega
      exact Nat.add_le_add hif le_rfl

/-- An open run of length at least 3 always produces a positive count. -/
theorem garbageRunsAux_pos_of_run : ∀ (cs : List Char) (run : ℕ), 3 ≤ run →
    0 < garbageRunsAux cs run := by
  intro cs
  induction cs with
  | nil => intro run h; simp [garbageRunsAux, h]
  | cons c cs ih =>
    intro run h
    by_cases hg : isGarbageChar c
    · simp only [garbageRunsAux, hg, if_true]
      exact ih _ (by omega)
    · rw [garbageRunsAux, if_neg hg, if_pos h]
      omega

/-- A leading all-garbage block that closes a run of total length at least 3
produces a positive count. -/
theorem garbageRunsAux_all_garbage_pos : ∀ (mid post : List Char) (run : ℕ),
    (∀ c ∈ mid, isGarbageChar c) → 3 ≤ run + mid.length →
    0 < garbageRunsAux (mid ++ post) run := by
  intro mid
  induction mid with
  | nil =>
    intro post run _ h
    simpa using garbageRunsAux_pos_of_run post run (by simpa using h)
  | cons c mid ih =>
    intro post run hall h
    have hg : isGarbageChar c := hall c (by simp)
    simp only [List.cons_append, garbageRunsAux, hg, if_true]
    exact ih post (run + 1) (fun d hd => hall d (by simp [hd]))
      (by simp only [List.length_cons] at h; omega)

/-- Prepending input never decreases the count of a suffix scanned from an
empty open run. -/
theorem garbageRunsAux_prefix_le : ∀ (pre rest : List Char) (run : ℕ),
    garbageRunsAux rest 0 ≤ garbageRunsAux (pre ++ rest) run := by
  intro pre
  induction pre with
  | nil =>
    intro rest run
    simpa using garbageRunsAux_mono rest run 0 (Nat.zero_le run)
  | cons c pre ih =>
    intro rest run
    by_cases hg : isGarbageChar c
    · simp only [List.cons_append, garbageRunsAux, hg, if_true]
      exact ih rest (run + 1)
    · simp only [List.cons_append, garbageRunsAux, hg, if_false]
      exact le_trans (ih rest 0) (Nat.le_add_left _ _)

/-- A positive count yields either a leading garbage block completing the
open run, or a garbage burst inside the input. -/
theorem garbageRunsAux_pos_elim : ∀ (cs : List Char) (run : ℕ),
    0 < garbageRunsAux cs run →
    (∃ mid post, cs = mid ++ post ∧ (∀ c ∈ mid, isGarbageChar c) ∧
      3 ≤ run + mid.length) ∨
    (∃ pre mid post, cs = pre ++ mid ++ post ∧ 3 ≤ mid.length ∧
      ∀ c ∈ mid, isGarbageChar c) := by
  intro cs
  induction cs with
  | nil =>
    intro run h
    simp only [garbageRunsAux] at h
    have hr : 3 ≤ run := by
      by_contra hlt
      rw [if_neg hlt] at h
      omega
    left
    exact ⟨[], [], by simp, by simp, by simpa using hr⟩
  | cons c cs ih =>
    intro run h
    by_cases hg : isGarbageChar c
    · have h2 : 0 < garbageRunsAux cs (run + 1) := by
        simpa [garbageRunsAux, hg] using h
      rcases ih (run + 1) h2 with ⟨mid, post, hcs, hall, hlen⟩ |
        ⟨pre, mid, post, hcs, hlen, hall⟩
      · left
        refine ⟨c :: mid, post, by simp [hcs], ?_, by simp; omega⟩
        intro d hd
        rcases List.mem_cons.mp hd with hd | hd
        · exact hd ▸ hg
        · exact hall d hd
      · right
        exact ⟨c :: pre, mid, post, by simp [hcs], hlen, hall⟩
    · have h2 : 0 < (if 3 ≤ run then 1 else 0) + garbageRunsAux cs 0 := by
        simpa [garbageRunsAux, hg] using h
      by_cases hr : 3 ≤ run
      · left
        exact ⟨[], c :: cs, by simp, by simp, by simpa using hr⟩
      · rw [if_neg hr] at h2
        have h3 : 0 < garbageRunsAux cs 0 := by omega
        rcases ih 0 h3 with ⟨mid, post, hcs, hall, hlen⟩ |
          ⟨pre, mid, post, hcs, hlen, hall⟩
        · right
          exact ⟨[c], mid, post, by simp [hcs], by simpa using hlen, hall⟩
        · right
          exact ⟨c :: pre, mid, post, by simp [hcs], hlen, hall⟩

/-- The regex count is positive exactly when the text has a garbage burst of
length at least 3. -/
theorem countGarbageRuns_pos_iff (s : String) :
    0 < countGarbageRuns s ↔ hasGarbageBurst s := by
  constructor
  · intro h
    rcases garbageRunsAux_pos_elim s.data 0 h with ⟨mid, post, hcs, hall, hlen⟩ |
      hb
    · exact ⟨[], mid, post, by simpa using hcs, by simpa using hlen, hall⟩
    · exact hb
  · rintro ⟨pre, mid, post, hcs, hlen, hall⟩
    unfold countGarbageRuns
    rw [hcs, List.append_assoc]
    calc 0 < garbageRunsAux (mid ++ post) 0 :=
          garbageRunsAux_all_garbage_pos mid post 0 hall (by omega)
      _ ≤ garbageRunsAux (pre ++ (mid ++ post)) 0 :=
          garbageRunsAux_prefix_le pre (mid ++ post) 0

/-- C8, amended: tier-2 output is accepted exactly when its stripped length
is at least 20 and it contains no garbage burst at all (a single run of
length 3 or more already rejects; the source tests `count > 0`, not
`count ≥ 3`). -/
theorem tier2_gate_accept_iff (markdown_content : String) :
    process_with_deepseek_ocr (Except.ok markdown_content) =
        Except.ok markdown_content ↔
      (20 ≤ (pyStrip markdown_content).length ∧
        ¬ hasGarbageBurst markdown_content) := by
  rw [← countGarbageRuns_pos_iff]
  simp only [process_with_deepseek_ocr]
  split_ifs with h1 h2
  · simp
    omega
  · simp
    omega
  · simp
    omega

/-- C8, counterexample: a long-enough tier-2 output with exactly ONE garbage
run of length 3 (fewer than the 3 occurrences the claim requires for
rejection) is nevertheless rejected by the gate. -/
theorem single_garbage_run_rejected :
    countGarbageRuns "Invoice total 100.00 &&& thanks" = 1 ∧
    20 ≤ (pyStrip "Invoice total 100.00 &&& thanks").length ∧
    process_with_deepseek_ocr (Except.ok "Invoice total 100.00 &&& thanks") =
      Except.error "DeepSeek-OCR produced garbage characters (possible OCR failure)" := by
  refine ⟨by rfl, by decide, by rfl⟩

/-- Per-field refinement for the declared types the code defaults: for a
schema field of type string, number, array, boolean or date, the validation
loop body either raises the TypeError (number type, non-numeric non-string
value) or produces exactly the one entry described by the spec-side
coercion-or-default. -/
theorem validateField_known_types (f : SchemaField)
    (extracted_data : List (String × JValue))
    (htype : f.type = "string" ∨ f.type = "number" ∨ f.type = "array" ∨
      f.type = "boolean" ∨ f.type = "date") :
    validateField f extracted_data = Except.error "TypeError: float() argument" ∨
    validateField f extracted_data =
      Except.ok [(f.key, specFieldValue f extracted_data)] := by
  unfold validateField specFieldValue specCoerce specDefault
  cases hl : lookupJson extracted_data f.key with
  | none =>
    right
    rcases htype with ht | ht | ht | ht | ht <;> simp [ht]
  | some value =>
    rcases htype with ht | ht | ht | ht | ht
    · right
      simp [ht]
    · cases value with
      | str s =>
        right
        simp only [ht, pyIsIntOrFloat]
        cases hpf : pyFloatGen (pyStrip (pyReplace (pyReplace s "$" "") "," "")) with
        | none => simp [hpf]
        | some q => simp [hpf]
      | int n => right; simp [ht, pyIsIntOrFloat]
      | float q => right; simp [ht, pyIsIntOrFloat]
      | bool b => right; simp [ht, pyIsIntOrFloat]
      | null => left; simp [ht, pyIsIntOrFloat]
      | arr xs => left; simp [ht, pyIsIntOrFloat]
      | obj kvs => left; simp [ht, pyIsIntOrFloat]
    · right
      cases value <;> simp [ht, pyIsIntOrFloat, pyIsList]
    · right
      cases value <;> simp [ht, pyIsIntOrFloat, pyIsList, pyIsBool]
    · right
      simp [ht]

/-- C5, amended: for schemas whose declared types all lie in the vocabulary
the code actually defaults — string, number, array, boolean, date — every
successful run of the schema-validation loop returns exactly one entry per
declared schema field, in schema order, equal to the spec-side
coercion-or-default of that field; the exactly-one-entry guarantee does NOT
extend to other declared types such as "text" or "currency" (see the
counterexample). -/
theorem extract_data_with_schema_refines_spec :
    ∀ (schema : List SchemaField) (extracted_data out : List (String × JValue)),
      (∀ f ∈ schema, f.type = "string" ∨ f.type = "number" ∨ f.type = "array" ∨
        f.type = "boolean" ∨ f.type = "date") →
      extract_data_with_schema schema extracted_data = Except.ok out →
      out = schema.map (fun f => (f.key, specFieldValue f extracted_data)) := by
  intro schema
  induction schema with
  | nil =>
    intro extracted_data out _ hok
    simp only [extract_data_with_schema] at hok
    simp only [Except.ok.injEq] at hok
    simp [← hok]
  | cons f rest ih =>
    intro extracted_data out htypes hok
    simp only [extract_data_with_schema] at hok
    rcases validateField_known_types f extracted_data (htypes f (by simp)) with
      herr | hfld
    · rw [herr] at hok
      cases hok
    · rw [hfld] at hok
      cases hrec : extract_data_with_schema rest extracted_data with
      | error e => rw [hrec] at hok; cases hok
      | ok out2 =>
        rw [hrec] at hok
        simp only [Except.ok.injEq] at hok
        have h2 := ih extracted_data out2 (fun g hg => htypes g (by simp [hg])) hrec
        rw [← hok, h2]
        simp

/-- Witness for C5 on a concrete invoice-style schema: a present integer
number field (passed through), a present boolean given as the string "Yes",
an absent array and an absent string field filled with their defaults. -/
theorem extract_data_with_schema_refines_spec_witness :
    ([("total", JValue.int 1200), ("paid", JValue.bool true),
        ("tags", JValue.arr []), ("vendor", JValue.str "")] :
        List (String × JValue)) =
      ([⟨"total", "number", "d1"⟩, ⟨"paid", "boolean", "d2"⟩,
          ⟨"tags", "array", "d3"⟩, ⟨"vendor", "string", "d4"⟩] :
          List SchemaField).map
        (fun f => (f.key, specFieldValue f
          [("total", JValue.int 1200), ("paid", JValue.str "Yes")])) :=
  extract_data_with_schema_refines_spec
    [⟨"total", "number", "d1"⟩, ⟨"paid", "boolean", "d2"⟩,
      ⟨"tags", "array", "d3"⟩, ⟨"vendor", "string", "d4"⟩]
    [("total", JValue.int 1200), ("paid", JValue.str "Yes")]
    [("total", JValue.int 1200), ("paid", JValue.bool true),
      ("tags", JValue.arr []), ("vendor", JValue.str "")]
    (by decide) (by rfl)

/-- C5, counterexample: a schema field of declared type "text" (one of the
types named by the claim) that is absent from the parsed output yields NO
entry at all — the returned record is empty rather than holding the claimed
type-appropriate default — and the same happens for "currency". -/
theorem schema_text_field_absent_yields_no_entry :
    extract_data_with_schema [⟨"vendor_name", "text", "Vendor name"⟩] [] =
      Except.ok [] ∧
    extract_data_with_schema [⟨"price", "currency", "Price"⟩] [] =
      Except.ok [] := by
  refine ⟨by rfl, by rfl⟩
